import Mathlib

/-
Shallow embedding of `Yank/storage_handlers.py`: the path model, the
per-kind NetCDF type handlers (NCInt, NCFloat, NCString, NCArray,
NCIterable, NCQuantity, NCDict) and the NetCDFIODriver facade, together
with theorems about the spec-level properties of this storage layer.

Stateful Python methods are embedded as functions from a handler-state
record to a pair of the updated state and an optional raised error;
mutations performed before a `raise` are kept in the returned state, as
they are in Python.  The netCDF substrate (groups, dimensions, variables
with an unlimited leading axis) is modelled by explicit records, with the
unlimited-dimension write `var[length, :] = x` growing the variable only
when `length` equals the current extent.
-/

namespace YankStorage

/-- Python `str.split(sep)` for a one-character separator, as used by
`decompose_path` (`path.split('/')`): cut at every occurrence of the
separator, keeping the empty pieces. The first argument accumulates the
current piece in reverse. -/
def pySplitChar (sep : Char) : List Char → List Char → List String
  | acc, [] => [String.mk acc.reverse]
  | acc, c :: cs =>
    if c = sep then String.mk acc.reverse :: pySplitChar sep [] cs
    else pySplitChar sep (c :: acc) cs

/-- `decompose_path` from `storage_handlers.py`: split the path on `'/'`
and keep only the non-empty entries. -/
def decompose_path (path : String) : List String :=
  (pySplitChar '/' [] path.data).filter (fun e => e ≠ "")

/-- The error taxonomy of the storage layer, naming the distinct Python
exceptions the source raises: `notFound` is the `KeyError` of a read-bind
on a missing object, `typeMismatch` the "Invalid data type" `TypeError`,
`modeViolation` the "Cannot overwrite, must use append()" /
"Cannot append, must use write()" `TypeError`, `shapeMismatch` and
`unitMismatch` the two `ValueError`s of shape and unit checks,
`notSupported` the `NotImplementedError` of `NCDict._bind_append`,
`attributeMissing` any `AttributeError` (in particular the missing
`IODriver_Type` tag), `unknownType` the `KeyError` for an unregistered
type tag or key, `indexError` an out-of-range index, and `unboundLocal`
Python's `UnboundLocalError`/`NameError` for a local read before
assignment. -/
inductive Err
  | notFound
  | typeMismatch
  | modeViolation
  | shapeMismatch
  | unitMismatch
  | notSupported
  | attributeMissing
  | unknownType
  | indexError
  | unboundLocal
deriving DecidableEq, Repr

/-- The `_output_mode` flag of a handler: `'w'`, `'a'` or `'r'`. -/
inductive OutMode
  | w
  | a
  | r
deriving DecidableEq, Repr

/-- A numpy array: its shape together with its flattened contents
(numeric cells modelled as rationals, which the identity
encoders/decoders never compute with). -/
structure NDArr where
  shape : List Nat
  elems : List Rat
deriving DecidableEq, Repr

/-- The payload of a `simtk.unit.Quantity` after the unit is stripped
(`data / data.unit`): a Python int, a Python float, or a numpy array.
(List/tuple payloads are left out of the model: for them
`_determine_data_information` trips over `tuple(len(data_value))` and
degenerates to the scalar branch.) -/
inductive QPayload
  | pint (n : Int)
  | pfloat (q : Rat)
  | parr (a : NDArr)
deriving DecidableEq, Repr

/-- A `simtk.unit.Quantity`: a payload tagged with the canonical string of
its physical unit (`str(quantity.unit)`). Units are represented by their
canonical strings throughout. -/
structure QuantityVal where
  payload : QPayload
  unitStr : String
deriving DecidableEq, Repr

/-- A Python value as stored in a dict entry (the record handler):
heterogeneous but non-nested, which covers every branch of
`NCDict._encode_dict` the claims exercise. -/
inductive SimpleVal
  | sint (n : Int)
  | sfloat (q : Rat)
  | sstr (s : String)
  | slist (xs : List Rat)
  | snone
  | squantity (q : QuantityVal)
deriving DecidableEq, Repr

/-- A Python runtime value passed to `write`/`append`: the type handlers
dispatch on its runtime type. -/
inductive PyValue
  | vint (n : Int)
  | vfloat (q : Rat)
  | vstr (s : String)
  | varr (a : NDArr)
  | vlist (xs : List Rat)
  | vtuple (xs : List Rat)
  | vquantity (q : QuantityVal)
  | vdict (entries : List (String × SimpleVal))
deriving DecidableEq, Repr

/-- The contents of a netCDF variable: `fixedCell` for an object created
with dimensions `('scalar',)` (or one fixed dimension per axis), holding
at most one record (`none` while still at the fill value), and `growable`
for an object whose leading dimension is the unlimited `iteration` axis,
holding the list of appended entries. -/
inductive NCData (α : Type)
  | fixedCell (v : Option α)
  | growable (entries : List α)
deriving DecidableEq, Repr

/-- A netCDF variable: the reserved attributes stamped by the handlers
(`IODriver_Type`, `type`, `IODriver_Unit`, `IODriver_Storage_Type`,
`IODriver_Appendable`, each absent on legacy objects), the per-entry
dimension lengths it was created with, free-form extra attributes, and
its data. -/
structure NCVariable (α : Type) where
  ioType : Option String := none
  typeAttr : Option String := none
  unitAttr : Option String := none
  storageKindAttr : Option String := none
  appendable : Option Bool := none
  entryDims : List Nat := []
  extras : List (String × String) := []
  data : NCData α
deriving DecidableEq, Repr

/-- The netCDF `Variable.shape`: a growable variable's leading extent is
the number of entries written so far. -/
def NCVariable.shape {α : Type} (v : NCVariable α) : List Nat :=
  match v.data with
  | .fixedCell _ => v.entryDims
  | .growable es => es.length :: v.entryDims

/-- The substrate assignment `var[i, :] = x`: on the unlimited leading
axis, writing at index equal to the current extent grows the variable by
one entry, writing below it overwrites in place, and writing past it is
out of range. (On a fixed-shape variable the handlers never reach this
with a meaningful row index; the substrate would store the single
record.) -/
def NCData.assignRow {α : Type} (d : NCData α) (i : Nat) (x : α) :
    NCData α × Option Err :=
  match d with
  | .fixedCell _ => (.fixedCell (some x), none)
  | .growable es =>
    if i = es.length then (.growable (es ++ [x]), none)
    else if i < es.length then (.growable (es.set i x), none)
    else (.growable es, some .indexError)

/-- The substrate assignment `var[:] = x` of a whole single record. -/
def NCData.assignAll {α : Type} (d : NCData α) (x : α) : NCData α :=
  match d with
  | .fixedCell _ => .fixedCell (some x)
  | .growable es => .growable (es.map (fun _ => x))

/-- Per-class configuration shared by the textually parallel scalar
handlers `NCInt` and `NCFloat` (and reused piecewise by the others):
the class's `type_string`, the value written to the `type` attribute at
creation, and the runtime-type test `type(data) is self._dtype`, returning
the unwrapped payload on success. -/
structure SCfg (α : Type) where
  typeString : String
  typeAttrVal : String
  tyMatch : PyValue → Option α

/-- The state of a scalar-kind handler instance (`NCVariableTypeHandler`
fields): the storage location it targets (`_storage_object[_target]`,
`none` while no object exists there), whether `_bound_target` has been
set, `_output_mode`, `_save_shape`, whether a `RuntimeWarning` has been
emitted, and the `_metadata_buffer`. -/
structure SHandler (α : Type) where
  fileVar : Option (NCVariable α) := none
  bound : Bool := false
  outputMode : Option OutMode := none
  saveShape : Option (List Nat) := none
  warned : Bool := false
  buffer : List (String × String) := []
deriving DecidableEq, Repr

/-- The mode table of `_check_write_append`: the persisted
`IODriver_Appendable` flag resolves to `'a'` when set and `'r'` when not;
`'w'` is never produced. -/
def resolveMode (appendable : Bool) : OutMode :=
  if appendable then .a else .r

/-- `_check_write_append`: reads `IODriver_Appendable` from the bound
target and sets `_output_mode` through `resolveMode`. An unbound target
or a missing attribute is an `AttributeError`. -/
def sCheckWriteAppend {α : Type} (s : SHandler α) : SHandler α × Option Err :=
  match s.bound, s.fileVar with
  | true, some v =>
    match v.appendable with
    | some b => ({ s with outputMode := some (resolveMode b) }, none)
    | none => (s, some .attributeMissing)
  | _, _ => (s, some .attributeMissing)

/-- `_attempt_storage_read`: bind to the object at the target location
(`KeyError` if none exists), then check its `IODriver_Type` tag. A
missing tag raises an `AttributeError` that the method itself catches and
turns into a `RuntimeWarning`; a mismatching tag takes the `raise
TypeError(...)` branch whose message calls the non-existent `.foramt`,
so it too ends as a caught `AttributeError` and a warning. Either way
the handler stays bound. -/
def sAttemptStorageRead {α : Type} (cfg : SCfg α) (s : SHandler α) :
    SHandler α × Option Err :=
  match s.fileVar with
  | none => (s, some .notFound)
  | some v =>
    ({ s with bound := true,
              warned := s.warned || decide (v.ioType ≠ some cfg.typeString) },
     none)

/-- `_bind_read` of `NCInt`/`NCFloat` (and `NCArray`): attempt the
storage read, resolve the output mode, and cache the established shape —
for an appendable object the per-entry shape `shape[1:]`, else the full
shape. -/
def sBindRead {α : Type} (cfg : SCfg α) (s : SHandler α) :
    SHandler α × Option Err :=
  match sAttemptStorageRead cfg s with
  | (s1, some e) => (s1, some e)
  | (s1, none) =>
    match sCheckWriteAppend s1 with
    | (s2, some e) => (s2, some e)
    | (s2, none) =>
      match s2.fileVar with
      | some v =>
        if s2.outputMode = some OutMode.a then
          ({ s2 with saveShape := some v.shape.tail }, none)
        else
          ({ s2 with saveShape := some v.shape }, none)
      | none => (s2, some .attributeMissing)

/-- `_dump_metadata_buffer`: stamp every buffered pair onto the bound
target and clear the buffer; `UnboundLocalError` when unbound. -/
def sDumpMetadataBuffer {α : Type} (s : SHandler α) : SHandler α × Option Err :=
  match s.bound, s.fileVar with
  | true, some v =>
    ({ s with fileVar := some { v with extras := v.extras ++ s.buffer },
              buffer := [] }, none)
  | _, _ => (s, some .unboundLocal)

/-- The variable created by `NCInt._bind_write`/`_bind_append` (and the
`NCFloat` twins): dimension `('scalar',)`, or `('iteration', 'scalar')`
for append, stamped with `IODriver_Type`, `type`, `IODriver_Unit =
'NoneType'`, `IODriver_Storage_Type = 'variable'` and the
`IODriver_Appendable` flag. -/
def sNewVar {α : Type} (cfg : SCfg α) (append : Bool) : NCVariable α :=
  { ioType := some cfg.typeString
    typeAttr := some cfg.typeAttrVal
    unitAttr := some "NoneType"
    storageKindAttr := some "variable"
    appendable := some append
    entryDims := [1]
    data := if append then .growable [] else .fixedCell none }

/-- The tail both bind paths share: dump the metadata buffer, then
`_check_write_append`. -/
def sPostBind {α : Type} (s : SHandler α) : SHandler α × Option Err :=
  match sDumpMetadataBuffer s with
  | (s1, some e) => (s1, some e)
  | (s1, none) => sCheckWriteAppend s1

/-- `_bind_write` of `NCInt`/`NCFloat`: try `_bind_read`; only its
`KeyError` is caught, in which case the scalar variable is created and
stamped; then the common tail runs. -/
def sBindWrite {α : Type} (cfg : SCfg α) (s : SHandler α) :
    SHandler α × Option Err :=
  match sBindRead cfg s with
  | (s1, none) => sPostBind s1
  | (s1, some Err.notFound) =>
    sPostBind { s1 with fileVar := some (sNewVar cfg false), bound := true }
  | (s1, some e) => (s1, some e)

/-- `_bind_append` of `NCInt`/`NCFloat`: as `_bind_write`, but the created
variable leads with the unlimited `iteration` axis and is stamped
appendable. -/
def sBindAppend {α : Type} (cfg : SCfg α) (s : SHandler α) :
    SHandler α × Option Err :=
  match sBindRead cfg s with
  | (s1, none) => sPostBind s1
  | (s1, some Err.notFound) =>
    sPostBind { s1 with fileVar := some (sNewVar cfg true), bound := true }
  | (s1, some e) => (s1, some e)

/-- `write` of `NCInt`/`NCFloat`: runtime-type check, bind through
`_bind_write` when unbound, demand output mode `'w'` (raising the
cannot-overwrite `TypeError` otherwise), then `var[:] = data`. -/
def sWrite {α : Type} (cfg : SCfg α) (s : SHandler α) (v : PyValue) :
    SHandler α × Option Err :=
  match cfg.tyMatch v with
  | none => (s, some .typeMismatch)
  | some x =>
    match (if s.bound then (s, none) else sBindWrite cfg s) with
    | (s1, some e) => (s1, some e)
    | (s1, none) =>
      if s1.outputMode ≠ some OutMode.w then (s1, some .modeViolation)
      else
        match s1.fileVar with
        | some v1 =>
          ({ s1 with fileVar := some { v1 with data := v1.data.assignAll x } },
           none)
        | none => (s1, some .attributeMissing)

/-- `append` of `NCInt`/`NCFloat`: runtime-type check, bind through
`_bind_append` when unbound, demand output mode `'a'`, then write at
`length = var.shape[0]`, the current extent of the growth axis. -/
def sAppend {α : Type} (cfg : SCfg α) (s : SHandler α) (v : PyValue) :
    SHandler α × Option Err :=
  match cfg.tyMatch v with
  | none => (s, some .typeMismatch)
  | some x =>
    match (if s.bound then (s, none) else sBindAppend cfg s) with
    | (s1, some e) => (s1, some e)
    | (s1, none) =>
      if s1.outputMode ≠ some OutMode.a then (s1, some .modeViolation)
      else
        match s1.fileVar with
        | some v1 =>
          match v1.data.assignRow (v1.shape.headD 0) x with
          | (d2, none) =>
            ({ s1 with fileVar := some { v1 with data := d2 } }, none)
          | (_, some e) => (s1, some e)
        | none => (s1, some .attributeMissing)

/-- The `NCInt` configuration: `_dtype = int`, `type_string = "int"`. -/
def NCInt.cfg : SCfg Int :=
  { typeString := "int"
    typeAttrVal := "int"
    tyMatch := fun v => match v with | .vint n => some n | _ => none }

/-- A freshly constructed `NCInt` handler at a location where no object
exists yet. -/
def NCInt.fresh : SHandler Int := {}

/-- `NCInt._attempt_storage_read`. -/
def NCInt.attempt_storage_read (s : SHandler Int) : SHandler Int × Option Err :=
  sAttemptStorageRead NCInt.cfg s

/-- `NCInt.write`. -/
def NCInt.write (s : SHandler Int) (v : PyValue) : SHandler Int × Option Err :=
  sWrite NCInt.cfg s v

/-- `NCInt.append`. -/
def NCInt.append (s : SHandler Int) (v : PyValue) : SHandler Int × Option Err :=
  sAppend NCInt.cfg s v

/-- The `NCFloat` configuration: `_dtype = float`, `type_string =
"float"`. -/
def NCFloat.cfg : SCfg Rat :=
  { typeString := "float"
    typeAttrVal := "float"
    tyMatch := fun v => match v with | .vfloat q => some q | _ => none }

/-- A freshly constructed `NCFloat` handler at a location where no object
exists yet. -/
def NCFloat.fresh : SHandler Rat := {}

/-- `NCFloat.write`. -/
def NCFloat.write (s : SHandler Rat) (v : PyValue) : SHandler Rat × Option Err :=
  sWrite NCFloat.cfg s v

/-- `NCFloat.append`. -/
def NCFloat.append (s : SHandler Rat) (v : PyValue) : SHandler Rat × Option Err :=
  sAppend NCFloat.cfg s v

/-- The `NCString` configuration: `_dtype = str`, `type_string = "str"`. -/
def NCString.cfg : SCfg String :=
  { typeString := "str"
    typeAttrVal := "str"
    tyMatch := fun v => match v with | .vstr s => some s | _ => none }

/-- A freshly constructed `NCString` handler at a location where no object
exists yet. -/
def NCString.fresh : SHandler String := {}

/-- `NCString._bind_read`: only the storage-read attempt — unlike the
numeric handlers it resolves neither the output mode nor a shape. -/
def NCString.bind_read (s : SHandler String) : SHandler String × Option Err :=
  sAttemptStorageRead NCString.cfg s

/-- The variable created by `NCString._bind_write`/`_bind_append`: a
length-1 text cell per entry; the stamped attributes are only
`IODriver_Type`, `IODriver_Storage_Type` and `IODriver_Appendable` (no
`type`, no `IODriver_Unit`). -/
def NCString.newVar (append : Bool) : NCVariable String :=
  { ioType := some "str"
    storageKindAttr := some "variable"
    appendable := some append
    entryDims := [1]
    data := if append then .growable [] else .fixedCell none }

/-- `NCString._bind_write` (takes no data): try `_bind_read`, create the
scalar text variable on its `KeyError`, then dump the buffer and resolve
the mode. -/
def NCString.bind_write (s : SHandler String) : SHandler String × Option Err :=
  match NCString.bind_read s with
  | (s1, none) => sPostBind s1
  | (s1, some Err.notFound) =>
    sPostBind { s1 with fileVar := some (NCString.newVar false), bound := true }
  | (s1, some e) => (s1, some e)

/-- `NCString._bind_append`: as `_bind_write`, with the unlimited
`iteration` axis prepended and the appendable flag set. -/
def NCString.bind_append (s : SHandler String) : SHandler String × Option Err :=
  match NCString.bind_read s with
  | (s1, none) => sPostBind s1
  | (s1, some Err.notFound) =>
    sPostBind { s1 with fileVar := some (NCString.newVar true), bound := true }
  | (s1, some e) => (s1, some e)

/-- `NCString.write`: runtime-type check, bind (data-less) when unbound,
demand mode `'w'`, then store the packed string. -/
def NCString.write (s : SHandler String) (v : PyValue) :
    SHandler String × Option Err :=
  match NCString.cfg.tyMatch v with
  | none => (s, some .typeMismatch)
  | some x =>
    match (if s.bound then (s, none) else NCString.bind_write s) with
    | (s1, some e) => (s1, some e)
    | (s1, none) =>
      if s1.outputMode ≠ some OutMode.w then (s1, some .modeViolation)
      else
        match s1.fileVar with
        | some v1 =>
          ({ s1 with fileVar := some { v1 with data := v1.data.assignAll x } },
           none)
        | none => (s1, some .attributeMissing)

/-- `NCString.append`: runtime-type check, bind when unbound, demand mode
`'a'` (raising the cannot-append `TypeError` otherwise), then write at
the current extent of the growth axis. -/
def NCString.append (s : SHandler String) (v : PyValue) :
    SHandler String × Option Err :=
  match NCString.cfg.tyMatch v with
  | none => (s, some .typeMismatch)
  | some x =>
    match (if s.bound then (s, none) else NCString.bind_append s) with
    | (s1, some e) => (s1, some e)
    | (s1, none) =>
      if s1.outputMode ≠ some OutMode.a then (s1, some .modeViolation)
      else
        match s1.fileVar with
        | some v1 =>
          match v1.data.assignRow (v1.shape.headD 0) x with
          | (d2, none) =>
            ({ s1 with fileVar := some { v1 with data := d2 } }, none)
          | (_, some e) => (s1, some e)
        | none => (s1, some .attributeMissing)

/-- The shape record of `NCQuantity._determine_data_information`: the
Python int `1` for a scalar payload, or the tuple of axis lengths for an
array payload. -/
inductive QShape
  | one
  | dims (l : List Nat)
deriving DecidableEq, Repr

/-- The `_compare_shape` lambda captured by
`NCQuantity._determine_data_information`: `lambda x: 1` for a scalar
payload, `lambda x: x.shape` for an array payload. -/
inductive CompareKind
  | constOne
  | byShape
deriving DecidableEq, Repr

/-- The encoder/decoder pair chosen by `NCQuantity._set_codifiers`. -/
inductive CodecKind
  | cInt
  | cFloat
  | cIterCodec
  | cArr
deriving DecidableEq, Repr

/-- Whether `needle` occurs as a contiguous run of `hay` (Python
`needle in hay` on strings, used by `_set_codifiers` for
`'ndarray' in stype`). -/
def sublistSearch (needle : List Char) : List Char → Bool
  | [] => needle.isEmpty
  | c :: cs => needle.isPrefixOf (c :: cs) || sublistSearch needle cs

/-- `NCQuantity._set_codifiers`: pick the encoder/decoder pair from the
element-type name; an unrecognized name raises the "does not know how to
handle" `TypeError`. -/
def NCQuantity.set_codifiers (stype : String) : Except Err CodecKind :=
  if stype = "int" then .ok .cInt
  else if stype = "float" then .ok .cFloat
  else if stype = "list" ∨ stype = "tuple" then .ok .cIterCodec
  else if sublistSearch "ndarray".data stype.data then .ok .cArr
  else .error .typeMismatch

/-- `NCQuantity._determine_data_information` applied to the quantity: the
unit is stripped (`data / data.unit`); an array payload has a `.shape`
and takes the array branch; a scalar payload raises `AttributeError` on
`.shape`, then `TypeError` on `tuple(len(...))`, landing in the scalar
branch with shape `1`. Returns the shape, the element-type name
(`typename(type(data_value))`) and the captured `_compare_shape`
lambda. -/
def NCQuantity.determine_data_information (q : QuantityVal) :
    QShape × String × CompareKind :=
  match q.payload with
  | .parr a => (.dims a.shape, "numpy.ndarray", .byShape)
  | .pint _ => (.one, "int", .constOne)
  | .pfloat _ => (.one, "float", .constOne)

/-- Apply a captured `_compare_shape` lambda to a later quantity
argument: `lambda x: 1` ignores it; `lambda x: x.shape` reads the shape
of the array payload (per the spec, a quantity's shape is the shape of
its numeric payload), and has no answer on a scalar payload
(`AttributeError`). -/
def applyCompare (k : CompareKind) (q : QuantityVal) : Option QShape :=
  match k with
  | .constOne => some .one
  | .byShape =>
    match q.payload with
    | .parr a => some (.dims a.shape)
    | .pint _ => none
    | .pfloat _ => none

/-- The state of an `NCQuantity` handler instance: the generic
`NCVariableTypeHandler` fields plus `_save_shape` as a quantity shape,
the `_unit` string fixed at bind, the captured `_compare_shape` lambda
and the chosen codec pair. -/
structure QHandler where
  fileVar : Option (NCVariable QPayload) := none
  bound : Bool := false
  outputMode : Option OutMode := none
  saveShape : Option QShape := none
  unitFixed : Option String := none
  compareShape : Option CompareKind := none
  codec : Option CodecKind := none
  warned : Bool := false
  buffer : List (String × String) := []
deriving DecidableEq, Repr

/-- A freshly constructed `NCQuantity` handler at a location where no
object exists yet. -/
def NCQuantity.fresh : QHandler := {}

/-- `NCQuantity._attempt_storage_read` (same base-class code as the
scalar handlers, with `type_string = "quantity"`). -/
def NCQuantity.attempt_storage_read (s : QHandler) : QHandler × Option Err :=
  match s.fileVar with
  | none => (s, some .notFound)
  | some v =>
    ({ s with bound := true,
              warned := s.warned || decide (v.ioType ≠ some "quantity") },
     none)

/-- `NCQuantity`'s `_check_write_append` (base-class code). -/
def NCQuantity.check_write_append (s : QHandler) : QHandler × Option Err :=
  match s.bound, s.fileVar with
  | true, some v =>
    match v.appendable with
    | some b => ({ s with outputMode := some (resolveMode b) }, none)
    | none => (s, some .attributeMissing)
  | _, _ => (s, some .attributeMissing)

/-- `NCQuantity`'s `_dump_metadata_buffer` (base-class code). -/
def NCQuantity.dump_metadata_buffer (s : QHandler) : QHandler × Option Err :=
  match s.bound, s.fileVar with
  | true, some v =>
    ({ s with fileVar := some { v with extras := v.extras ++ s.buffer },
              buffer := [] }, none)
  | _, _ => (s, some .unboundLocal)

/-- `NCQuantity._bind_read`: attempt the storage read, resolve the mode,
cache the established shape (`shape[1:]` for appendables, else the full
shape), re-read the `IODriver_Unit` string and re-pick the codec pair
from the `type` attribute. The `_compare_shape` lambda is not set on this
path. -/
def NCQuantity.bind_read (s : QHandler) : QHandler × Option Err :=
  match NCQuantity.attempt_storage_read s with
  | (s1, some e) => (s1, some e)
  | (s1, none) =>
    match NCQuantity.check_write_append s1 with
    | (s2, some e) => (s2, some e)
    | (s2, none) =>
      match s2.fileVar with
      | none => (s2, some .attributeMissing)
      | some v =>
        let s3 :=
          if s2.outputMode = some OutMode.a then
            { s2 with saveShape := some (.dims v.shape.tail) }
          else
            { s2 with saveShape := some (.dims v.shape) }
        match v.unitAttr with
        | none => (s3, some .attributeMissing)
        | some u =>
          let s4 := { s3 with unitFixed := some u }
          match v.typeAttr with
          | none => (s4, some .attributeMissing)
          | some t =>
            match NCQuantity.set_codifiers t with
            | .error e => (s4, some e)
            | .ok c => ({ s4 with codec := some c }, none)

/-- The variable created by `NCQuantity._bind_write`/`_bind_append`:
dimension `('scalar',)` for shape `1`, one `iterable<N>` dimension per
axis otherwise (plus the leading `iteration` axis when appendable),
stamped with the quantity type tag, the element-type name and the unit
string of the first datum. -/
def NCQuantity.newVar (append : Bool) (entryDims : List Nat)
    (tyname u : String) : NCVariable QPayload :=
  { ioType := some "quantity"
    typeAttr := some tyname
    unitAttr := some u
    storageKindAttr := some "variable"
    appendable := some append
    entryDims := entryDims
    data := if append then .growable [] else .fixedCell none }

/-- The tail of both quantity bind paths: dump the buffer, then
`_check_write_append`. -/
def NCQuantity.post_bind (s : QHandler) : QHandler × Option Err :=
  match NCQuantity.dump_metadata_buffer s with
  | (s1, some e) => (s1, some e)
  | (s1, none) => NCQuantity.check_write_append s1

/-- `NCQuantity._bind_write`: try `_bind_read`; on its `KeyError` create
and stamp the variable from the datum (fixing `_unit`, `_save_shape` and
`_compare_shape`), then dump, resolve the mode and pick the codecs. When
`_bind_read` succeeds instead, the tail still runs but then reads the
local `data_type_name` that was never assigned in that branch —
`UnboundLocalError`. -/
def NCQuantity.bind_write (s : QHandler) (q : QuantityVal) :
    QHandler × Option Err :=
  match NCQuantity.bind_read s with
  | (s1, none) =>
    match NCQuantity.post_bind s1 with
    | (s2, some e) => (s2, some e)
    | (s2, none) => (s2, some .unboundLocal)
  | (s1, some Err.notFound) =>
    let info := NCQuantity.determine_data_information q
    let ed := match info.1 with | .one => [1] | .dims l => l
    let s2 := { s1 with
      fileVar := some (NCQuantity.newVar false ed info.2.1 q.unitStr)
      bound := true
      unitFixed := some q.unitStr
      saveShape := some info.1
      compareShape := some info.2.2 }
    match NCQuantity.post_bind s2 with
    | (s3, some e) => (s3, some e)
    | (s3, none) =>
      match NCQuantity.set_codifiers info.2.1 with
      | .error e => (s3, some e)
      | .ok c => ({ s3 with codec := some c }, none)
  | (s1, some e) => (s1, some e)

/-- `NCQuantity._bind_append`: as `_bind_write`, with the unlimited
`iteration` axis prepended and the appendable flag set. -/
def NCQuantity.bind_append (s : QHandler) (q : QuantityVal) :
    QHandler × Option Err :=
  match NCQuantity.bind_read s with
  | (s1, none) =>
    match NCQuantity.post_bind s1 with
    | (s2, some e) => (s2, some e)
    | (s2, none) => (s2, some .unboundLocal)
  | (s1, some Err.notFound) =>
    let info := NCQuantity.determine_data_information q
    let ed := match info.1 with | .one => [1] | .dims l => l
    let s2 := { s1 with
      fileVar := some (NCQuantity.newVar true ed info.2.1 q.unitStr)
      bound := true
      unitFixed := some q.unitStr
      saveShape := some info.1
      compareShape := some info.2.2 }
    match NCQuantity.post_bind s2 with
    | (s3, some e) => (s3, some e)
    | (s3, none) =>
      match NCQuantity.set_codifiers info.2.1 with
      | .error e => (s3, some e)
      | .ok c => ({ s3 with codec := some c }, none)
  | (s1, some e) => (s1, some e)

/-- `NCQuantity.write`: runtime-type check, bind through `_bind_write`
when unbound, demand mode `'w'`, then the shape check
(`_save_shape != _compare_shape(data)`), then the unit check
(`_unit != str(data.unit)`), then strip the unit and store the
payload. -/
def NCQuantity.write (s : QHandler) (v : PyValue) : QHandler × Option Err :=
  match v with
  | .vquantity q =>
    match (if s.bound then (s, none) else NCQuantity.bind_write s q) with
    | (s1, some e) => (s1, some e)
    | (s1, none) =>
      if s1.outputMode ≠ some OutMode.w then (s1, some .modeViolation)
      else
        match s1.compareShape with
        | none => (s1, some .attributeMissing)
        | some k =>
          match applyCompare k q with
          | none => (s1, some .attributeMissing)
          | some sh =>
            if s1.saveShape ≠ some sh then (s1, some .shapeMismatch)
            else if s1.unitFixed ≠ some q.unitStr then (s1, some .unitMismatch)
            else
              match s1.fileVar with
              | some v1 =>
                ({ s1 with
                   fileVar := some { v1 with data := v1.data.assignAll q.payload } },
                 none)
              | none => (s1, some .attributeMissing)
  | _ => (s, some .typeMismatch)

/-- `NCQuantity.append`: the same checks with mode `'a'` demanded, then
the unit-stripped payload written at the current extent of the growth
axis. -/
def NCQuantity.append (s : QHandler) (v : PyValue) : QHandler × Option Err :=
  match v with
  | .vquantity q =>
    match (if s.bound then (s, none) else NCQuantity.bind_append s q) with
    | (s1, some e) => (s1, some e)
    | (s1, none) =>
      if s1.outputMode ≠ some OutMode.a then (s1, some .modeViolation)
      else
        match s1.compareShape with
        | none => (s1, some .attributeMissing)
        | some k =>
          match applyCompare k q with
          | none => (s1, some .attributeMissing)
          | some sh =>
            if s1.saveShape ≠ some sh then (s1, some .shapeMismatch)
            else if s1.unitFixed ≠ some q.unitStr then (s1, some .unitMismatch)
            else
              match s1.fileVar with
              | some v1 =>
                match v1.data.assignRow (v1.shape.headD 0) q.payload with
                | (d2, none) =>
                  ({ s1 with fileVar := some { v1 with data := d2 } }, none)
                | (_, some e) => (s1, some e)
              | none => (s1, some .attributeMissing)
  | _ => (s, some .typeMismatch)

/-- The guard expression of `NCArray.write`/`NCArray.append`:
`isinstance(type(data), self._dtype)` with `self._dtype = np.ndarray`.
Its argument is the class `type(data)`, and a class object is never an
`np.ndarray` instance, so the expression evaluates to `False` for every
`data` — including genuine arrays. -/
def isinstance_type_is_ndarray (_v : PyValue) : Bool := false

/-- The `NCArray` configuration: `type_string = "numpy.ndarray"`; the
`type` attribute records `str(data.dtype)`, which for the numeric arrays
of this model is numpy's default `"float64"`. -/
def NCArray.cfg : SCfg NDArr :=
  { typeString := "numpy.ndarray"
    typeAttrVal := "float64"
    tyMatch := fun v => match v with | .varr a => some a | _ => none }

/-- A freshly constructed `NCArray` handler at a location where no object
exists yet. -/
def NCArray.fresh : SHandler NDArr := {}

/-- `NCArray._bind_write`: try `_bind_read` (the shared scalar-handler
code); on its `KeyError` create the variable with one `iterable<N>`
dimension per axis of the datum and stamp it non-appendable. Note that
unlike `NCIterable`/`NCQuantity` this bind never sets `_save_shape`. -/
def NCArray.bind_write (s : SHandler NDArr) (a : NDArr) :
    SHandler NDArr × Option Err :=
  match sBindRead NCArray.cfg s with
  | (s1, none) => sPostBind s1
  | (s1, some Err.notFound) =>
    let v : NCVariable NDArr :=
      { ioType := some "numpy.ndarray"
        typeAttr := some "float64"
        unitAttr := some "NoneType"
        storageKindAttr := some "variable"
        appendable := some false
        entryDims := a.shape
        data := .fixedCell none }
    sPostBind { s1 with fileVar := some v, bound := true }
  | (s1, some e) => (s1, some e)

/-- `NCArray._bind_append`: as `_bind_write` with the unlimited
`iteration` axis prepended and the appendable flag set. (Dead code: both
`NCArray.write` and `NCArray.append` bind through `_bind_write`.) -/
def NCArray.bind_append (s : SHandler NDArr) (a : NDArr) :
    SHandler NDArr × Option Err :=
  match sBindRead NCArray.cfg s with
  | (s1, none) => sPostBind s1
  | (s1, some Err.notFound) =>
    let v : NCVariable NDArr :=
      { ioType := some "numpy.ndarray"
        typeAttr := some "float64"
        unitAttr := some "NoneType"
        storageKindAttr := some "variable"
        appendable := some true
        entryDims := a.shape
        data := .growable [] }
    sPostBind { s1 with fileVar := some v, bound := true }
  | (s1, some e) => (s1, some e)

/-- `NCArray.write`: the broken runtime-type guard fires for every input,
so the method always raises the "Invalid data type" `TypeError`. The
remaining body (bind, mode `'w'` demand, then the shape check, which
would itself die on the never-assigned `self._compare_shape`) is
transcribed but unreachable. -/
def NCArray.write (s : SHandler NDArr) (v : PyValue) :
    SHandler NDArr × Option Err :=
  if ¬ isinstance_type_is_ndarray v then (s, some .typeMismatch)
  else
    match v with
    | .varr a =>
      match (if s.bound then (s, none) else NCArray.bind_write s a) with
      | (s1, some e) => (s1, some e)
      | (s1, none) =>
        if s1.outputMode ≠ some OutMode.w then (s1, some .modeViolation)
        else (s1, some .attributeMissing)
    | _ => (s, some .attributeMissing)

/-- `NCArray.append`: the same broken guard always raises; past it the
body would bind through `_bind_write` (not `_bind_append`), demand mode
`'a'`, and then hit the never-assigned `self._compare_shape`. -/
def NCArray.append (s : SHandler NDArr) (v : PyValue) :
    SHandler NDArr × Option Err :=
  if ¬ isinstance_type_is_ndarray v then (s, some .typeMismatch)
  else
    match v with
    | .varr a =>
      match (if s.bound then (s, none) else NCArray.bind_write s a) with
      | (s1, some e) => (s1, some e)
      | (s1, none) =>
        if s1.outputMode ≠ some OutMode.a then (s1, some .modeViolation)
        else (s1, some .attributeMissing)
    | _ => (s, some .attributeMissing)

/-- The guard expression of `NCIterable.write`/`NCIterable.append`:
`isinstance(type(data), self._dtype)` with `self._dtype =
collections.Iterable`. A class object is not iterable, so the expression
is `False` for every `data` — including genuine lists and tuples. -/
def isinstance_type_is_iterable (_v : PyValue) : Bool := false

/-- The `NCIterable` configuration: `type_string = "iterable"`; entries
are modelled as rows of rationals. -/
def NCIterable.cfg : SCfg (List Rat) :=
  { typeString := "iterable"
    typeAttrVal := "list"
    tyMatch := fun v =>
      match v with
      | .vlist xs => some xs
      | .vtuple xs => some xs
      | _ => none }

/-- A freshly constructed `NCIterable` handler at a location where no
object exists yet. -/
def NCIterable.fresh : SHandler (List Rat) := {}

/-- `NCIterable._bind_write`: try `_bind_read`; on its `KeyError` create
the variable on the single `iterable<len(data)>` dimension and record
`_save_shape = len(data)` (the source stores the Python int; the model
stores the singleton dimension list). -/
def NCIterable.bind_write (s : SHandler (List Rat)) (xs : List Rat)
    (tyname : String) : SHandler (List Rat) × Option Err :=
  match sBindRead NCIterable.cfg s with
  | (s1, none) => sPostBind s1
  | (s1, some Err.notFound) =>
    let v : NCVariable (List Rat) :=
      { ioType := some "iterable"
        typeAttr := some tyname
        unitAttr := some "NoneType"
        storageKindAttr := some "variable"
        appendable := some false
        entryDims := [xs.length]
        data := .fixedCell none }
    sPostBind { s1 with fileVar := some v, bound := true,
                        saveShape := some [xs.length] }
  | (s1, some e) => (s1, some e)

/-- `NCIterable.write`: the broken runtime-type guard always raises the
"Invalid data type" `TypeError`; the transcribed remainder (bind, mode
`'w'` demand, shape check against `_save_shape`) is unreachable. -/
def NCIterable.write (s : SHandler (List Rat)) (v : PyValue) :
    SHandler (List Rat) × Option Err :=
  if ¬ isinstance_type_is_iterable v then (s, some .typeMismatch)
  else
    match NCIterable.cfg.tyMatch v with
    | none => (s, some .attributeMissing)
    | some xs =>
      match (if s.bound then (s, none) else NCIterable.bind_write s xs "list") with
      | (s1, some e) => (s1, some e)
      | (s1, none) =>
        if s1.outputMode ≠ some OutMode.w then (s1, some .modeViolation)
        else if s1.saveShape ≠ some [xs.length] then (s1, some .shapeMismatch)
        else
          match s1.fileVar with
          | some v1 =>
            ({ s1 with fileVar := some { v1 with data := v1.data.assignAll xs } },
             none)
          | none => (s1, some .attributeMissing)

/-- `NCIterable.append`: the same broken guard always raises; past it the
body would bind through `_bind_write` (not `_bind_append`) and then
demand mode `'a'`. -/
def NCIterable.append (s : SHandler (List Rat)) (v : PyValue) :
    SHandler (List Rat) × Option Err :=
  if ¬ isinstance_type_is_iterable v then (s, some .typeMismatch)
  else
    match NCIterable.cfg.tyMatch v with
    | none => (s, some .attributeMissing)
    | some xs =>
      match (if s.bound then (s, none) else NCIterable.bind_write s xs "list") with
      | (s1, some e) => (s1, some e)
      | (s1, none) =>
        if s1.outputMode ≠ some OutMode.a then (s1, some .modeViolation)
        else if s1.saveShape ≠ some [xs.length] then (s1, some .shapeMismatch)
        else
          match s1.fileVar with
          | some v1 =>
            match v1.data.assignRow (v1.shape.headD 0) xs with
            | (d2, none) =>
              ({ s1 with fileVar := some { v1 with data := d2 } }, none)
            | (_, some e) => (s1, some e)
          | none => (s1, some .attributeMissing)

/-- One encoded entry of a record group: the child variable's `type`
attribute, its optional `units` attribute (present exactly when the
entry was a quantity), and its stored value. -/
structure DStored where
  typeAttr : String
  unitsAttr : Option String := none
  value : SimpleVal
deriving DecidableEq, Repr

/-- A netCDF group used by the record handler: the reserved attributes
stamped by `NCDict._bind_write`, free-form extras, and one child variable
per encoded entry. -/
structure DGroup where
  ioType : Option String := none
  storageKindAttr : Option String := none
  appendable : Option Bool := none
  extras : List (String × String) := []
  entries : List (String × DStored) := []
deriving DecidableEq, Repr

/-- The state of an `NCDict` handler instance. (`NCDict._bind_write`
never calls `_check_write_append`, so `_output_mode` stays unset.) -/
structure DHandler where
  fileGroup : Option DGroup := none
  bound : Bool := false
  outputMode : Option OutMode := none
  warned : Bool := false
  buffer : List (String × String) := []
deriving DecidableEq, Repr

/-- A freshly constructed `NCDict` handler at a location where no object
exists yet. -/
def NCDict.fresh : DHandler := {}

/-- `NCDict._bind_read` (via the shared `_attempt_storage_read`): bind to
the group at the target location, warning instead of failing when its
type tag is absent or mismatching. -/
def NCDict.bind_read (s : DHandler) : DHandler × Option Err :=
  match s.fileGroup with
  | none => (s, some .notFound)
  | some g =>
    ({ s with bound := true,
              warned := s.warned || decide (g.ioType ≠ some "dict") }, none)

/-- `NCDict._bind_write` (takes no data): try `_bind_read`, create the
group on its `KeyError`, then — in both cases — stamp
`IODriver_Type = 'dict'`, `IODriver_Storage_Type = 'group'` and
`IODriver_Appendable = 0` and dump the metadata buffer. -/
def NCDict.bind_write (s : DHandler) : DHandler × Option Err :=
  match (match NCDict.bind_read s with
         | (t, none) => (t, none)
         | (t, some Err.notFound) =>
           ({ t with fileGroup := some {}, bound := true }, none)
         | (t, some e) => (t, some e)) with
  | (s1, some e) => (s1, some e)
  | (s1, none) =>
    match s1.fileGroup with
    | none => (s1, some .unboundLocal)
    | some g =>
      ({ s1 with
         fileGroup := some { g with
           ioType := some "dict"
           storageKindAttr := some "group"
           appendable := some false
           extras := g.extras ++ s1.buffer }
         buffer := [] }, none)

/-- One entry of `NCDict._encode_dict`: a quantity is stripped of its
unit first (recording a `units` attribute); strings become scalar text
cells; iterables get one dimension named after the entry; `None` is
stored as the sentinel integer `0` tagged `NoneType`; remaining scalars
are stored directly, each tagged with its element-type name. -/
def NCDict.encode_datum (v : SimpleVal) : DStored :=
  match v with
  | .squantity q =>
    match q.payload with
    | .pint n => { typeAttr := "int", unitsAttr := some q.unitStr, value := .sint n }
    | .pfloat x => { typeAttr := "float", unitsAttr := some q.unitStr, value := .sfloat x }
    | .parr a =>
      { typeAttr := "float64", unitsAttr := some q.unitStr,
        value := .slist a.elems }
  | .sstr t => { typeAttr := "str", value := .sstr t }
  | .sint n => { typeAttr := "int", value := .sint n }
  | .sfloat x => { typeAttr := "float", value := .sfloat x }
  | .slist xs => { typeAttr := "float", value := .slist xs }
  | .snone => { typeAttr := "NoneType", value := .sint 0 }

/-- `NCDict.write`: bind (creating and stamping the group) when unbound,
then `_encode_dict(data)`. There is no runtime-type check: a non-dict
argument fails only when the encoder iterates `data.keys()` — an
`AttributeError` — after the group has already been created. -/
def NCDict.write (s : DHandler) (v : PyValue) : DHandler × Option Err :=
  match (if s.bound then (s, none) else NCDict.bind_write s) with
  | (s1, some e) => (s1, some e)
  | (s1, none) =>
    match v with
    | .vdict kvs =>
      match s1.fileGroup with
      | none => (s1, some .unboundLocal)
      | some g =>
        ({ s1 with fileGroup := some { g with
             entries := g.entries ++ kvs.map (fun kv => (kv.1, NCDict.encode_datum kv.2)) } },
         none)
    | _ => (s1, some .attributeMissing)

/-- `NCDict.append`: unconditionally calls `_bind_append`, which raises
`NotImplementedError` ("Dictionaries cannot be appended to!"). -/
def NCDict.append (s : DHandler) (_v : PyValue) : DHandler × Option Err :=
  (s, some .notSupported)

/-- The attributes of an on-file object the driver inspects:
`IODriver_Type` and `IODriver_Storage_Type`, either possibly absent. -/
structure NCObjAttrs where
  ioDriverType : Option String := none
  ioStorageType : Option String := none
deriving DecidableEq, Repr

/-- The on-file hierarchy as the driver navigates it: groups and
variables, each keyed by its decomposed path. -/
structure FileModel where
  groups : List (List String × NCObjAttrs) := []
  vars : List (List String × NCObjAttrs) := []
deriving DecidableEq, Repr

/-- A handler instance as the driver's caches see it: a construction
identity (each `uninstanced_handler(...)` call makes a distinct object),
the tag it was resolved from, and the leaf name it targets. -/
structure HandlerInst where
  id : Nat
  tag : String
  targetName : String
deriving DecidableEq, Repr

/-- The `NetCDFIODriver` state: the open file, the `_groups` cache, the
`_variables` handler cache keyed by the full path string, and the
construction counter supplying instance identities. -/
structure NetCDFIODriver where
  file : FileModel := {}
  groupsCache : List (List String) := []
  varsCache : List (String × HandlerInst) := []
  nextId : Nat := 0
deriving DecidableEq, Repr

/-- The keys of `_IOMetaDataReaders`: the `type_string()` of every
registered handler class. -/
def knownTags : List String :=
  ["str", "int", "dict", "float", "iterable", "numpy.ndarray", "quantity"]

/-- Whether every intermediate group of the path exists, as the
navigation loop `for header in split_path[:-1]: head_group =
head_group.groups[header]` requires (a missing one is the `KeyError`
reported as "No variable found"). `acc` is the walked prefix. -/
def chainOk (gs : List (List String × NCObjAttrs)) (acc : List String) :
    List String → Bool
  | [] => true
  | h :: t =>
    (gs.lookup (acc ++ [h])).isSome && chainOk gs (acc ++ [h]) t

/-- Lines 179–202 of `get_variable_handler`: find the storage object at
the decomposed path. The leaf is taken as a group only when it exists as
one and carries `IODriver_Storage_Type = 'group'` (a missing attribute is
an `AttributeError` the code traps and ignores); otherwise it must exist
as a variable. An empty decomposition dies on `split_path[-1]`. -/
def locateStorageObject (f : FileModel) (split : List String) :
    Except Err NCObjAttrs :=
  if split = [] then .error .indexError
  else if ¬ chainOk f.groups [] split.dropLast then .error .notFound
  else
    match f.groups.lookup split with
    | some g =>
      if g.ioStorageType = some "group" then .ok g
      else
        match f.vars.lookup split with
        | some v => .ok v
        | none => .error .notFound
    | none =>
      match f.vars.lookup split with
      | some v => .ok v
      | none => .error .notFound

/-- `createGroup(path)` creates the whole cascade of groups on file;
existing ones are kept. -/
def addGroupChain (gs : List (List String × NCObjAttrs)) (acc : List String) :
    List String → List (List String × NCObjAttrs)
  | [] => gs
  | h :: t =>
    let p := acc ++ [h]
    let gs1 := if (gs.lookup p).isSome then gs else (p, {}) :: gs
    addGroupChain gs1 p t

/-- `NetCDFIODriver.get_variable_handler`: return the cached handler for
the path if one exists; otherwise locate the object on file, read its
`IODriver_Type` tag (absent: `raise AttributeError` — "Cannot auto-detect
variable type"), resolve it in `_IOMetaDataReaders` (unknown: `KeyError` —
"No mapped type handler known"), then construct, cache and return a new
handler bound to the object's group and leaf name. -/
def NetCDFIODriver.get_variable_handler (d : NetCDFIODriver) (path : String) :
    NetCDFIODriver × Except Err HandlerInst :=
  match d.varsCache.lookup path with
  | some h => (d, .ok h)
  | none =>
    let split := decompose_path path
    match locateStorageObject d.file split with
    | .error e => (d, .error e)
    | .ok obj =>
      match obj.ioDriverType with
      | none => (d, .error .attributeMissing)
      | some t =>
        if knownTags.contains t then
          let inst : HandlerInst :=
            { id := d.nextId, tag := t, targetName := split.getLastD "" }
          ({ d with
             file := { d.file with
               groups := addGroupChain d.file.groups [] split.dropLast }
             groupsCache := split.dropLast :: d.groupsCache
             varsCache := (path, inst) :: d.varsCache
             nextId := d.nextId + 1 }, .ok inst)
        else (d, .error .unknownType)

/-- The Python-type keys registered in `_type_maps` by
`NetCDFIODriver.__init__`; the registry holds every member, so the
"No known Type Handler" `KeyError` branch of `create_storage_variable`
is unreachable over this key type. -/
inductive PTypeKey
  | kstr
  | kint
  | kdict
  | kfloat
  | klist
  | ktuple
  | kndarray
  | kquantity
deriving DecidableEq, Repr

/-- The `_type_maps` resolution composed with each class's
`type_string()`. -/
def typeMapTag : PTypeKey → String
  | .kstr => "str"
  | .kint => "int"
  | .kdict => "dict"
  | .kfloat => "float"
  | .klist => "iterable"
  | .ktuple => "iterable"
  | .kndarray => "numpy.ndarray"
  | .kquantity => "quantity"

/-- `NetCDFIODriver.create_storage_variable`: resolve the type key,
decompose the path, bind (creating) the group chain above the leaf, then
unconditionally construct a new handler, install it in the `_variables`
cache (replacing any cached one) and return it. An empty decomposition
dies on `split_path[-1]`. -/
def NetCDFIODriver.create_storage_variable (d : NetCDFIODriver)
    (path : String) (k : PTypeKey) : NetCDFIODriver × Except Err HandlerInst :=
  let split := decompose_path path
  if split = [] then (d, .error .indexError)
  else
    let inst : HandlerInst :=
      { id := d.nextId, tag := typeMapTag k, targetName := split.getLastD "" }
    ({ d with
       file := { d.file with
         groups := addGroupChain d.file.groups [] split.dropLast }
       groupsCache := split.dropLast :: d.groupsCache
       varsCache := (path, inst) :: d.varsCache
       nextId := d.nextId + 1 }, .ok inst)

/-- C9. Path decomposition: `decompose_path` splits its input on `'/'`
and discards the empty segments, for every input string (it is total and
every returned segment is non-empty); in particular `"///a/b//"`
decomposes to `("a", "b")`, and both `"/"` and `""` decompose to the
empty sequence. -/
theorem decompose_path_drops_empty_segments :
    (∀ (p s : String), s ∈ decompose_path p → s ≠ "") ∧
    decompose_path "///a/b//" = ["a", "b"] ∧
    decompose_path "/" = [] ∧
    decompose_path "" = [] := by
  refine ⟨?_, by decide, by decide, by decide⟩
  intro p s hs
  exact of_decide_eq_true (List.mem_filter.mp hs).2

/-- Witness for C9: the segment `"a"` really is produced from
`"///a/b//"` and the theorem applies to it. -/
theorem decompose_path_drops_empty_segments_witness :
    "a" ∈ decompose_path "///a/b//" ∧ "a" ≠ "" :=
  ⟨by decide, decompose_path_drops_empty_segments.1 "///a/b//" "a" (by decide)⟩

/-- C1. Round trip fails at the failing input: on a freshly created
handler of each of the six kinds bound to a path where no object exists,
`write(x)` with the spec's representative `x` does not succeed — for the
scalar-like kinds it raises the cannot-overwrite mode error (because
`_check_write_append` resolves the freshly stamped `IODriver_Appendable =
0` to mode `'r'` while `write` demands `'w'`), and for the array and
sequence kinds the broken `isinstance(type(data), ...)` guard raises the
type error outright — so `read()` can never return `x`. -/
theorem first_write_always_raises_cannot_overwrite :
    (NCInt.write NCInt.fresh (.vint 42)).2 = some Err.modeViolation ∧
    (NCFloat.write NCFloat.fresh (.vfloat 3.5)).2 = some Err.modeViolation ∧
    (NCString.write NCString.fresh (.vstr "abc")).2 = some Err.modeViolation ∧
    (NCQuantity.write NCQuantity.fresh
      (.vquantity ⟨.pint 300, "kelvin"⟩)).2 = some Err.modeViolation ∧
    (NCArray.write NCArray.fresh
      (.varr ⟨[2, 2], [1, 2, 3, 4]⟩)).2 = some Err.typeMismatch ∧
    (NCIterable.write NCIterable.fresh
      (.vtuple [1, 2, 3])).2 = some Err.typeMismatch := by
  exact ⟨rfl, rfl, rfl, rfl, rfl, rfl⟩

/-- C10. The mode-resolution step `_check_write_append` maps the
persisted appendable flag only to `'a'` or `'r'`, never `'w'`; hence on
any bound non-record handler whose mode was so resolved, the `write`
mode guard (which demands `'w'`) raises the cannot-overwrite error for
every value of the declared kind — shown for the cited `NCInt.write`
and `NCString.write`. -/
theorem output_mode_never_write :
    (∀ b : Bool, resolveMode b ≠ OutMode.w) ∧
    (∀ (s : SHandler Int) (b : Bool) (n : Int),
      s.bound = true → s.outputMode = some (resolveMode b) →
      (NCInt.write s (.vint n)).2 = some Err.modeViolation) ∧
    (∀ (s : SHandler String) (b : Bool) (t : String),
      s.bound = true → s.outputMode = some (resolveMode b) →
      (NCString.write s (.vstr t)).2 = some Err.modeViolation) := by
  refine ⟨?_, ?_, ?_⟩
  · intro b
    cases b <;> simp [resolveMode]
  · intro s b n hb hm
    cases b <;>
      simp [NCInt.write, sWrite, NCInt.cfg, hb, hm, resolveMode]
  · intro s b t hb hm
    cases b <;>
      simp [NCString.write, NCString.cfg, hb, hm, resolveMode]

/-- Witness for C10: a concrete bound handler with mode resolved from a
non-appendable flag, on which `write` raises the cannot-overwrite
error. -/
theorem output_mode_never_write_witness :
    ({ bound := true, outputMode := some (resolveMode false) } :
      SHandler Int).bound = true ∧
    (NCInt.write
      { bound := true, outputMode := some (resolveMode false) }
      (.vint 7)).2 = some Err.modeViolation :=
  ⟨rfl, output_mode_never_write.2.1
    { bound := true, outputMode := some (resolveMode false) } false 7 rfl rfl⟩

/-- C3, counterexample. The claim "every later append call on a
write-bound path raises ModeViolation ... regardless of the value
passed" fails: a float handler bound through the write path (the bind
survives the failed `write`) raises the type-mismatch error, not the
mode error, when `append` is given a string; and the record handler,
bound through the write path by a successful dict `write`, raises
`NotSupported`, not `ModeViolation`, on `append`. -/
theorem mode_exclusivity_claim_fails_as_stated :
    (NCFloat.write NCFloat.fresh (.vfloat 1.5)).1.bound = true ∧
    (NCFloat.append (NCFloat.write NCFloat.fresh (.vfloat 1.5)).1
      (.vstr "abc")).2 = some Err.typeMismatch ∧
    (NCDict.write NCDict.fresh (.vdict [])).2 = none ∧
    (NCDict.append (NCDict.write NCDict.fresh (.vdict [])).1
      (.vdict [])).2 = some Err.notSupported := by
  exact ⟨rfl, rfl, rfl, rfl⟩

/-- C3, amended: for the integer, float, string and quantity handlers
and values of the handler's declared kind, once the handler is bound
with output mode `'r'` (the mode every write-path bind resolves to)
every `append` raises `ModeViolation`, and once bound with mode `'a'`
(the mode every append-path bind resolves to) every `write` raises
`ModeViolation`. The array and sequence handlers never get as far as the
mode guard, even for declared-kind values: their broken
`isinstance(type(data), ...)` guard raises `TypeMismatch` for every
value in every state. A value of the wrong runtime kind likewise raises
`TypeMismatch` before the mode guard, and `append` on a record always
raises `NotSupported`, whatever the state and value. -/
theorem mode_exclusivity_for_declared_kind_values :
    (∀ (s : SHandler Rat) (q : Rat),
      s.bound = true → s.outputMode = some OutMode.r →
      (NCFloat.append s (.vfloat q)).2 = some Err.modeViolation) ∧
    (∀ (s : SHandler Rat) (q : Rat),
      s.bound = true → s.outputMode = some OutMode.a →
      (NCFloat.write s (.vfloat q)).2 = some Err.modeViolation) ∧
    (∀ (s : SHandler Int) (n : Int),
      s.bound = true → s.outputMode = some OutMode.r →
      (NCInt.append s (.vint n)).2 = some Err.modeViolation) ∧
    (∀ (s : SHandler Int) (n : Int),
      s.bound = true → s.outputMode = some OutMode.a →
      (NCInt.write s (.vint n)).2 = some Err.modeViolation) ∧
    (∀ (s : SHandler String) (t : String),
      s.bound = true → s.outputMode = some OutMode.r →
      (NCString.append s (.vstr t)).2 = some Err.modeViolation) ∧
    (∀ (s : SHandler String) (t : String),
      s.bound = true → s.outputMode = some OutMode.a →
      (NCString.write s (.vstr t)).2 = some Err.modeViolation) ∧
    (∀ (s : QHandler) (q : QuantityVal),
      s.bound = true → s.outputMode = some OutMode.r →
      (NCQuantity.append s (.vquantity q)).2 = some Err.modeViolation) ∧
    (∀ (s : QHandler) (q : QuantityVal),
      s.bound = true → s.outputMode = some OutMode.a →
      (NCQuantity.write s (.vquantity q)).2 = some Err.modeViolation) ∧
    (∀ (s : SHandler NDArr) (a : NDArr),
      NCArray.append s (.varr a) = (s, some Err.typeMismatch) ∧
      NCArray.write s (.varr a) = (s, some Err.typeMismatch)) ∧
    (∀ (s : SHandler (List Rat)) (xs : List Rat),
      NCIterable.append s (.vlist xs) = (s, some Err.typeMismatch) ∧
      NCIterable.append s (.vtuple xs) = (s, some Err.typeMismatch) ∧
      NCIterable.write s (.vlist xs) = (s, some Err.typeMismatch) ∧
      NCIterable.write s (.vtuple xs) = (s, some Err.typeMismatch)) ∧
    (∀ (s : DHandler) (v : PyValue),
      (NCDict.append s v).2 = some Err.notSupported) := by
  refine ⟨?_, ?_, ?_, ?_, ?_, ?_, ?_, ?_, ?_, ?_, ?_⟩
  · intro s q hb hm
    simp [NCFloat.append, sAppend, NCFloat.cfg, hb, hm]
  · intro s q hb hm
    simp [NCFloat.write, sWrite, NCFloat.cfg, hb, hm]
  · intro s n hb hm
    simp [NCInt.append, sAppend, NCInt.cfg, hb, hm]
  · intro s n hb hm
    simp [NCInt.write, sWrite, NCInt.cfg, hb, hm]
  · intro s t hb hm
    simp [NCString.append, NCString.cfg, hb, hm]
  · intro s t hb hm
    simp [NCString.write, NCString.cfg, hb, hm]
  · intro s q hb hm
    simp [NCQuantity.append, hb, hm]
  · intro s q hb hm
    simp [NCQuantity.write, hb, hm]
  · intro s a
    exact ⟨rfl, rfl⟩
  · intro s xs
    exact ⟨rfl, rfl, rfl, rfl⟩
  · intro s v
    simp [NCDict.append]

/-- Witness for C3: a concrete read-mode-bound float handler on which
`append` of a float raises the mode error. -/
theorem mode_exclusivity_for_declared_kind_values_witness :
    ({ bound := true, outputMode := some OutMode.r } : SHandler Rat).bound
      = true ∧
    (NCFloat.append
      { bound := true, outputMode := some OutMode.r }
      (.vfloat 2.5)).2 = some Err.modeViolation :=
  ⟨rfl, mode_exclusivity_for_declared_kind_values.1
    { bound := true, outputMode := some OutMode.r } 2.5 rfl rfl⟩

/-- C5, counterexample. The record (dict) handler does not reject
non-dict input with the type-mismatch error: writing the integer `5` to
a fresh dict handler first creates and stamps the group, then dies with
an `AttributeError` when the encoder iterates `data.keys()`. -/
theorem record_write_lacks_type_gate :
    (NCDict.write NCDict.fresh (.vint 5)).2 = some Err.attributeMissing ∧
    (NCDict.write NCDict.fresh (.vint 5)).1.fileGroup = some
      { ioType := some "dict"
        storageKindAttr := some "group"
        appendable := some false
        extras := []
        entries := [] } := by
  exact ⟨rfl, rfl⟩

/-- C5, amended: every non-record handler raises `TypeMismatch`, with
the state untouched (so before anything is stored), whenever the
argument's runtime kind disagrees with the declared kind — the array and
sequence handlers raise it for every argument whatsoever, their guard
being broken — while the record handler performs no kind check: non-dict
input fails with a generic attribute error from the key iteration, after
the group has been created. -/
theorem type_gate_for_nonrecord_handlers :
    (∀ (s : SHandler Int) (v : PyValue), (∀ n, v ≠ .vint n) →
      NCInt.write s v = (s, some Err.typeMismatch)) ∧
    (∀ (s : SHandler Rat) (v : PyValue), (∀ q, v ≠ .vfloat q) →
      NCFloat.write s v = (s, some Err.typeMismatch)) ∧
    (∀ (s : SHandler String) (v : PyValue), (∀ t, v ≠ .vstr t) →
      NCString.write s v = (s, some Err.typeMismatch)) ∧
    (∀ (s : QHandler) (v : PyValue), (∀ q, v ≠ .vquantity q) →
      NCQuantity.write s v = (s, some Err.typeMismatch)) ∧
    (∀ (s : SHandler NDArr) (v : PyValue),
      NCArray.write s v = (s, some Err.typeMismatch)) ∧
    (∀ (s : SHandler (List Rat)) (v : PyValue),
      NCIterable.write s v = (s, some Err.typeMismatch)) ∧
    ((NCDict.write NCDict.fresh (.vint 5)).2 = some Err.attributeMissing ∧
     (NCDict.write NCDict.fresh (.vint 5)).1.bound = true) := by
  refine ⟨?_, ?_, ?_, ?_, ?_, ?_, rfl, rfl⟩
  · intro s v h
    cases v
    case vint n => exact absurd rfl (h n)
    all_goals rfl
  · intro s v h
    cases v
    case vfloat q => exact absurd rfl (h q)
    all_goals rfl
  · intro s v h
    cases v
    case vstr t => exact absurd rfl (h t)
    all_goals rfl
  · intro s v h
    cases v
    case vquantity q => exact absurd rfl (h q)
    all_goals rfl
  · intro s v
    rfl
  · intro s v
    rfl

/-- Witness for C5: a fresh int handler really rejects a string with the
type-mismatch error, leaving the state unchanged. -/
theorem type_gate_for_nonrecord_handlers_witness :
    NCInt.write NCInt.fresh (.vstr "x") =
      (NCInt.fresh, some Err.typeMismatch) :=
  type_gate_for_nonrecord_handlers.1 NCInt.fresh (.vstr "x")
    (fun _i h => nomatch h)

/-- C7, counterexample. On a file holding a variable at `a/b` with no
`IODriver_Type` attribute, `get_variable_handler` raises the
`AttributeError` ("Cannot auto-detect variable type") — it does not warn
and return a best-effort handler. -/
theorem legacy_missing_tag_raises_in_driver :
    (NetCDFIODriver.get_variable_handler
      { file := { groups := [(["a"], {})],
                  vars := [(["a", "b"],
                            { ioStorageType := some "variable" })] } }
      "a/b").2 = .error Err.attributeMissing := by
  exact rfl

/-- C7, amended: when the object at the path exists but its type tag is
absent, the driver's `get_variable_handler` raises the fatal
`AttributeError`; a present but unregistered tag raises the
`UnknownType` `KeyError`. The non-fatal degradation lives one level
down, in the handler's `_attempt_storage_read`: binding a typed handler
to a tag-less object succeeds, leaving it bound with only a
`RuntimeWarning` recorded. -/
theorem missing_tag_driver_raises_handler_warns :
    (∀ (d : NetCDFIODriver) (p : String) (obj : NCObjAttrs),
      d.varsCache.lookup p = none →
      locateStorageObject d.file (decompose_path p) = .ok obj →
      obj.ioDriverType = none →
      (NetCDFIODriver.get_variable_handler d p).2 =
        .error Err.attributeMissing) ∧
    (∀ (d : NetCDFIODriver) (p : String) (obj : NCObjAttrs) (t : String),
      d.varsCache.lookup p = none →
      locateStorageObject d.file (decompose_path p) = .ok obj →
      obj.ioDriverType = some t →
      t ∉ knownTags →
      (NetCDFIODriver.get_variable_handler d p).2 = .error Err.unknownType) ∧
    (∀ (s : SHandler Int) (v : NCVariable Int),
      s.fileVar = some v → v.ioType = none →
      (NCInt.attempt_storage_read s).2 = none ∧
      (NCInt.attempt_storage_read s).1.bound = true ∧
      (NCInt.attempt_storage_read s).1.warned = true) := by
  refine ⟨?_, ?_, ?_⟩
  · intro d p obj hc hl ht
    simp [NetCDFIODriver.get_variable_handler, hc, hl, ht]
  · intro d p obj t hc hl ht hk
    simp [NetCDFIODriver.get_variable_handler, hc, hl, ht, hk]
  · intro s v hf ht
    refine ⟨?_, ?_, ?_⟩ <;>
      simp [NCInt.attempt_storage_read, sAttemptStorageRead, NCInt.cfg,
            hf, ht]

/-- Witness for C7: the concrete legacy file and a concrete tag-less
variable, on which the driver raises and the handler-level read-bind
warns but binds. -/
theorem missing_tag_driver_raises_handler_warns_witness :
    (NetCDFIODriver.get_variable_handler
      { file := { groups := [(["a"], {})],
                  vars := [(["a", "b"],
                            { ioStorageType := some "variable" })] } }
      "a/b").2 = .error Err.attributeMissing ∧
    (NCInt.attempt_storage_read
      { fileVar := some { data := NCData.fixedCell none } }).1.warned = true :=
  ⟨missing_tag_driver_raises_handler_warns.1
    { file := { groups := [(["a"], {})],
                vars := [(["a", "b"], { ioStorageType := some "variable" })] } }
    "a/b" { ioStorageType := some "variable" } rfl rfl rfl,
   (missing_tag_driver_raises_handler_warns.2.2
    { fileVar := some { data := NCData.fixedCell none } }
    { data := NCData.fixedCell none } rfl rfl).2.2⟩

/-- C8, counterexample. `create_storage_variable` on a path already in
the handler cache does not return the cached instance: creating twice at
`"p"` returns a first handler with construction identity 0 and then a
second, distinct one with identity 1, which replaces the first in the
cache. -/
theorem create_storage_variable_overwrites_cache :
    (NetCDFIODriver.create_storage_variable ({} : NetCDFIODriver)
      "p" .kint).2 = .ok { id := 0, tag := "int", targetName := "p" } ∧
    (NetCDFIODriver.create_storage_variable
      (NetCDFIODriver.create_storage_variable ({} : NetCDFIODriver)
        "p" .kint).1 "p" .kint).2 =
      .ok { id := 1, tag := "int", targetName := "p" } ∧
    ((NetCDFIODriver.create_storage_variable
      (NetCDFIODriver.create_storage_variable ({} : NetCDFIODriver)
        "p" .kint).1 "p" .kint).1.varsCache.lookup "p") =
      some { id := 1, tag := "int", targetName := "p" } := by
  exact ⟨rfl, rfl, rfl⟩

/-- C8, amended: `get_variable_handler` on a cached path returns the
cached instance with the driver state untouched, so the cache holds at
most one live handler per path; but `create_storage_variable` always
constructs a fresh handler (a new construction identity) and installs
it, overwriting any cached instance rather than reusing it. -/
theorem handler_cache_reuse_and_overwrite :
    (∀ (d : NetCDFIODriver) (p : String) (h : HandlerInst),
      d.varsCache.lookup p = some h →
      NetCDFIODriver.get_variable_handler d p = (d, .ok h)) ∧
    (∀ (d : NetCDFIODriver) (p : String) (k : PTypeKey),
      decompose_path p ≠ [] →
      (NetCDFIODriver.create_storage_variable d p k).2 =
        .ok { id := d.nextId, tag := typeMapTag k,
              targetName := (decompose_path p).getLastD "" } ∧
      (NetCDFIODriver.create_storage_variable d p k).1.varsCache.lookup p =
        some { id := d.nextId, tag := typeMapTag k,
               targetName := (decompose_path p).getLastD "" } ∧
      (NetCDFIODriver.create_storage_variable d p k).1.nextId =
        d.nextId + 1) := by
  constructor
  · intro d p h hc
    simp [NetCDFIODriver.get_variable_handler, hc]
  · intro d p k hne
    refine ⟨?_, ?_, ?_⟩ <;>
      simp [NetCDFIODriver.create_storage_variable, hne, List.lookup]

/-- Witness for C8: a driver with a cached handler at `"p"` hands the
cached instance back, and a fresh driver creating at `"p"` returns the
instance with construction identity 0. -/
theorem handler_cache_reuse_and_overwrite_witness :
    NetCDFIODriver.get_variable_handler
      { varsCache := [("p", { id := 5, tag := "int", targetName := "p" })] }
      "p" =
      ({ varsCache := [("p", { id := 5, tag := "int", targetName := "p" })] },
       .ok { id := 5, tag := "int", targetName := "p" }) ∧
    (NetCDFIODriver.create_storage_variable ({} : NetCDFIODriver)
      "p" .kint).2 = .ok { id := 0, tag := "int", targetName := "p" } :=
  ⟨handler_cache_reuse_and_overwrite.1
    { varsCache := [("p", { id := 5, tag := "int", targetName := "p" })] }
    "p" { id := 5, tag := "int", targetName := "p" } rfl,
   (handler_cache_reuse_and_overwrite.2 {} "p" .kint (by decide)).1⟩

end YankStorage
